import Mathlib

/-!
Shallow embedding of the availability, pricing, unit-assignment and booking
orchestration core of the hotel application (src/routers/public.py,
src/routers/admin.py, src/core.py, src/models.py).

Modelling conventions:
* a `datetime` is an integer number of minutes; a calendar `date` is an integer
  day number; `dateOf` is Python's `.date()` (floor to the day);
* monetary values (floats in the source) are modelled as exact rationals;
* SQLAlchemy queries are list operations preserving store order, so `.first()`
  is `List.find?` and `.order_by(x.desc()).first()` on a single column is the
  maximum of that column;
* randomly generated booking codes and wall-clock `created_at` stamps are not
  observable by any property below and are omitted from the record types;
* the Python `while curr < end` day-stepping loops are embedded through
  `nightsList`, the list of loop iteration points, computed with a fuel bound
  (the minute span dominates the number of one-day steps).
-/

namespace Hotel

def minutesPerDay : Int := 1440

/-- Python `datetime.date()`: floor of the minute stamp to whole days. -/
def dateOf (t : Int) : Int := Int.fdiv t minutesPerDay

/-- `models.RoomType` (the fields read by the core). -/
structure RoomType where
  id : Nat
  site_config_id : Nat
  price_per_night : ℚ
  total_quantity : Nat
  capacity : Nat
deriving DecidableEq

/-- `models.RoomUnit`. -/
structure RoomUnit where
  id : Nat
  room_type_id : Nat
  label : String
deriving DecidableEq

/-- `models.Booking` (the fields read or written by the core). -/
structure Booking where
  id : Nat
  site_config_id : Nat
  room_type_id : Nat
  room_unit_id : Option Nat
  guest_name : String
  guest_email : Option String
  guest_phone : Option String
  check_in : Int
  check_out : Int
  rooms_booked : Nat
  guests_count : Nat
  status : String
  total_price : ℚ
  deposit_amount : ℚ
  notes : String
deriving DecidableEq

/-- `models.SeasonalRate`; `room_type_id = none` is the tenant-wide wildcard. -/
structure SeasonalRate where
  site_config_id : Nat
  room_type_id : Option Nat
  start_date : Int
  end_date : Int
  multiplier : ℚ
deriving DecidableEq

/-- `models.MaintenanceBlock`; the application only ever writes
`qty_blocked = 1`, so the quantity is a natural number. -/
structure MaintenanceBlock where
  room_type_id : Nat
  room_unit_id : Option Nat
  start_date : Int
  end_date : Int
  qty_blocked : Nat
deriving DecidableEq

/-- `models.AuditLog` (the fields written by `log_activity`). -/
structure AuditEntry where
  site_config_id : Nat
  user : String
  action : String
  details : String
deriving DecidableEq

/-- The relational store, one list per table, in store order. -/
structure DB where
  rooms : List RoomType
  units : List RoomUnit
  bookings : List Booking
  blocks : List MaintenanceBlock
  seasons : List SeasonalRate
  logs : List AuditEntry
deriving DecidableEq

/-! ### The night iteration of the `while curr < end` loops -/

/-- One-day stepping with explicit fuel; the fuel is only a bound on the
number of steps, the loop condition `curr < e` is the source's. -/
def nightsAux : Nat → Int → Int → List Int
  | 0, _, _ => []
  | n + 1, s, e => if s < e then s :: nightsAux n (s + minutesPerDay) e else []

/-- The iteration points of `while curr < end_date: ... curr += timedelta(days=1)`
started at `s`: `s, s + 1day, s + 2day, ...` while below `e`. -/
def nightsList (s e : Int) : List Int := nightsAux (e - s).toNat s e

/-! ### Availability engine: `check_inventory_availability` (routers/public.py) -/

/-- The occupied count for one night: bookings of the tenant and room type in
a live status whose `[check_in, check_out)` overlaps `[curr, curr + 1day)`. -/
def occupiedCount (db : DB) (config_id room_type_id : Nat) (curr : Int) : Int :=
  ((db.bookings.filter (fun b => decide (b.site_config_id = config_id ∧
      b.room_type_id = room_type_id ∧
      b.status ∈ ["confirmed", "pending", "checked_in"] ∧
      b.check_in < curr + minutesPerDay ∧ b.check_out > curr))).length : Int)

/-- The blocked quantity for one night: sum of `qty_blocked` over maintenance
blocks of the room type whose date range overlaps the night's calendar day. -/
def blockedCount (db : DB) (room_type_id : Nat) (curr : Int) : Int :=
  ((db.blocks.filter (fun m => decide (m.room_type_id = room_type_id ∧
      m.start_date < dateOf (curr + minutesPerDay) ∧
      m.end_date > dateOf curr))).map (fun m => (m.qty_blocked : Int))).sum

/-- The body of the availability loop: early exit with `(False, 0)` on a
non-positive night, otherwise track the minimum. -/
def checkLoop (avail : Int → Int) : List Int → Int → Bool × Int
  | [], min_availability => (true, min_availability)
  | curr :: rest, min_availability =>
    let available_tonight := avail curr
    if available_tonight ≤ 0 then (false, 0)
    else checkLoop avail rest
      (if available_tonight < min_availability then available_tonight
       else min_availability)

/-- The loop-local `available_tonight = total_qty - occupied_count - blocked_count`. -/
def availableTonight (db : DB) (config_id room_type_id : Nat) (total_qty : Nat)
    (curr : Int) : Int :=
  (total_qty : Int) - occupiedCount db config_id room_type_id curr
    - blockedCount db room_type_id curr

/-- `check_inventory_availability` from routers/public.py. -/
def check_inventory_availability (db : DB) (config_id room_type_id : Nat)
    (start_date end_date : Int) (total_qty : Nat) : Bool × Int :=
  checkLoop (availableTonight db config_id room_type_id total_qty)
    (nightsList start_date end_date) (total_qty : Int)

/-! ### Pricing engine: `calculate_price` (src/core.py) with its Rate Calendar -/

/-- The room lookup of `calculate_price`: first room matching id and tenant. -/
def findRoom (db : DB) (config_id room_id : Nat) : Option RoomType :=
  db.rooms.find? (fun r => decide (r.id = room_id ∧ r.site_config_id = config_id))

/-- The Rate Calendar lookup for one calendar day `d`: first room-type-specific
seasonal rate containing `d` (range endpoints inclusive), else the first
tenant-wide wildcard rate containing `d`. -/
def seasonFor (db : DB) (config_id room_id : Nat) (d : Int) : Option SeasonalRate :=
  match db.seasons.find? (fun sr => decide (sr.site_config_id = config_id ∧
      sr.room_type_id = some room_id ∧ sr.start_date ≤ d ∧ sr.end_date ≥ d)) with
  | some sr => some sr
  | none => db.seasons.find? (fun sr => decide (sr.site_config_id = config_id ∧
      sr.room_type_id = none ∧ sr.start_date ≤ d ∧ sr.end_date ≥ d))

/-- One night's price: base price times the applicable multiplier (1 if no
seasonal rate applies). -/
def nightlyPrice (db : DB) (config_id room_id : Nat) (room : RoomType)
    (curr : Int) : ℚ :=
  room.price_per_night *
    (match seasonFor db config_id room_id (dateOf curr) with
     | some sr => sr.multiplier
     | none => 1)

/-- `calculate_price` from src/core.py.  `none` models the Python crash when
the room lookup fails and the loop body runs (an empty range never touches the
room, so it still returns `0 * count`). -/
def calculate_price (db : DB) (config_id room_id : Nat)
    (start_date end_date : Int) (count : ℚ) : Option ℚ :=
  match findRoom db config_id room_id with
  | some room =>
    some (((nightsList start_date end_date).foldl
      (fun total curr => total + nightlyPrice db config_id room_id room curr) 0) * count)
  | none => if start_date < end_date then none else some (0 * count)

/-! ### Unit assignment and booking orchestration: `book_confirm`
(routers/public.py) -/

/-- The datetime a guest check-in date maps to: 14:00 of that day. -/
def checkInTime (d : Int) : Int := d * minutesPerDay + 14 * 60

/-- The datetime a guest check-out date maps to: 11:00 of that day. -/
def checkOutTime (d : Int) : Int := d * minutesPerDay + 11 * 60

/-- The per-unit conflict query: first live booking on the unit overlapping
`[c_in, c_out)`. -/
def conflictFor (db : DB) (c_in c_out : Int) (u : RoomUnit) : Option Booking :=
  db.bookings.find? (fun b => decide (b.room_unit_id = some u.id ∧
    b.check_in < c_out ∧ b.check_out > c_in ∧
    b.status ∈ ["confirmed", "pending", "checked_in"]))

/-- The per-unit maintenance query: first block on the unit overlapping the
stay's calendar-day range. -/
def maintFor (db : DB) (c_in c_out : Int) (u : RoomUnit) : Option MaintenanceBlock :=
  db.blocks.find? (fun m => decide (m.room_unit_id = some u.id ∧
    m.start_date < dateOf c_out ∧ m.end_date > dateOf c_in))

/-- One assignment round's candidate set: units not already assigned in this
call, with no conflicting booking and no conflicting maintenance block. -/
def candidatesFor (db : DB) (c_in c_out : Int) (all_units : List RoomUnit)
    (assigned_units : List (Option RoomUnit)) : List RoomUnit :=
  all_units.filter (fun u => decide (¬ some u ∈ assigned_units ∧
    conflictFor db c_in c_out u = none ∧ maintFor db c_in c_out u = none))

/-- The checkout of the unit's most recent prior booking: maximum `check_out`
at or before `c_in` among bookings on the unit in a past-or-live status. -/
def lastCheckout (db : DB) (c_in : Int) (u : RoomUnit) : Option Int :=
  ((db.bookings.filter (fun b => decide (b.room_unit_id = some u.id ∧
      b.check_out ≤ c_in ∧
      b.status ∈ ["confirmed", "checked_in", "checked_out"]))).map
    Booking.check_out).max?

/-- The gap score in seconds; a unit with no prior booking scores the source's
sentinel `999999999.0`. -/
def gapSeconds (db : DB) (c_in : Int) (u : RoomUnit) : Int :=
  match lastCheckout db c_in u with
  | some t => (c_in - t) * 60
  | none => 999999999

/-- One step of the best-fit scan: keep the first unit whose gap is strictly
below the running minimum (`none` is the initial infinity). -/
def bestStep (db : DB) (c_in : Int) (acc : Option RoomUnit × Option Int)
    (u : RoomUnit) : Option RoomUnit × Option Int :=
  let gap := gapSeconds db c_in u
  match acc.2 with
  | none => (some u, some gap)
  | some min_gap => if gap < min_gap then (some u, some gap) else acc

/-- The best-fit scan over the candidates. -/
def pickBest (db : DB) (c_in : Int) (candidates : List RoomUnit) : Option RoomUnit :=
  (candidates.foldl (bestStep db c_in)
    ((none : Option RoomUnit), (none : Option Int))).1

/-- The `for _ in range(rooms_needed)` assignment loop: each round appends the
best candidate, or `none` when the candidate set is empty (`pickBest` of an
empty list is `none`, exactly the source's unassigned placeholder). -/
def assignLoop (db : DB) (all_units : List RoomUnit) (c_in c_out : Int) :
    Nat → List (Option RoomUnit) → List (Option RoomUnit)
  | 0, assigned_units => assigned_units
  | n + 1, assigned_units =>
    assignLoop db all_units c_in c_out n
      (assigned_units ++ [pickBest db c_in (candidatesFor db c_in c_out all_units assigned_units)])

/-- What `book_confirm` hands back: the booking-page error template, or the
success page's created rows, guest-facing total and night count. -/
inductive ConfirmOutcome where
  | failure (msg : String)
  | success (created : List Booking) (total_all : ℚ) (nights : Int)
deriving DecidableEq

/-- The Booking row created for round `i` of the creation loop. -/
def mkGuestBooking (config_id room_id : Nat) (guest_name : String)
    (guest_email guest_phone : Option String) (c_in c_out : Int)
    (total_one : ℚ) (guests_count : Nat) (unit : Option RoomUnit) : Booking :=
  { id := 0, site_config_id := config_id, room_type_id := room_id,
    room_unit_id := unit.map RoomUnit.id, guest_name := guest_name,
    guest_email := guest_email, guest_phone := guest_phone,
    check_in := c_in, check_out := c_out, rooms_booked := 1,
    guests_count := guests_count, status := "pending",
    total_price := total_one, deposit_amount := 0, notes := "" }

/-- The audit entry logged for round `i` of the creation loop. -/
def mkGuestLog (config_id : Nat) (guest_name : String)
    (unit : Option RoomUnit) : AuditEntry :=
  { site_config_id := config_id, user := "Guest", action := "New Booking",
    details := guest_name ++ " booked " ++
      (match unit with
       | some u => u.label
       | none => "UNASSIGNED (Fragmentation)") }

/-- The `all_units` query of `book_confirm`: units of the room type. -/
def guestUnits (db : DB) (room_id : Nat) : List RoomUnit :=
  db.units.filter (fun u => decide (u.room_type_id = room_id))

/-- The `assigned_units` the assignment phase of `book_confirm` produces. -/
def guestAssignments (db : DB) (room_id : Nat) (c_in c_out : Int) (n : Nat) :
    List (Option RoomUnit) :=
  assignLoop db (guestUnits db room_id) c_in c_out n []

/-- The Booking rows the creation loop of `book_confirm` persists. -/
def guestRows (db : DB) (config_id room_id : Nat) (guest_name : String)
    (guest_email guest_phone : Option String) (c_in c_out : Int) (total_one : ℚ)
    (guests_count : Nat) (n : Nat) : List Booking :=
  (List.range n).map (fun i =>
    mkGuestBooking config_id room_id guest_name guest_email guest_phone
      c_in c_out total_one guests_count ((guestAssignments db room_id c_in c_out n).getD i none))

/-- The audit entries the creation loop of `book_confirm` appends. -/
def guestLogs (db : DB) (config_id room_id : Nat) (guest_name : String)
    (c_in c_out : Int) (n : Nat) : List AuditEntry :=
  (List.range n).map (fun i =>
    mkGuestLog config_id guest_name ((guestAssignments db room_id c_in c_out n).getD i none))

/-- `book_confirm` from routers/public.py.  `none` models the Python crashes
(room id not found by `.get`, or the pricing loop touching a missing room). -/
def book_confirm (db : DB) (config_id : Nat) (room_id : Nat) (guest_name : String)
    (guest_email guest_phone : Option String) (check_in check_out : Int)
    (rooms_needed : Nat) (guests_count : Nat) : Option (DB × ConfirmOutcome) :=
  let c_in := checkInTime check_in
  let c_out := checkOutTime check_out
  match db.rooms.find? (fun r => decide (r.id = room_id)) with
  | none => none
  | some room_type =>
    let res := check_inventory_availability db config_id room_id c_in c_out
      room_type.total_quantity
    if ¬ res.1 = true ∨ res.2 < (rooms_needed : Int) then
      some (db, ConfirmOutcome.failure "Not enough rooms available for these dates.")
    else
      match calculate_price db config_id room_id c_in c_out 1 with
      | none => none
      | some total_one =>
        let created := guestRows db config_id room_id guest_name guest_email guest_phone
          c_in c_out total_one guests_count rooms_needed
        let new_logs := guestLogs db config_id room_id guest_name c_in c_out rooms_needed
        some ({ db with bookings := db.bookings ++ created,
                        logs := db.logs ++ new_logs },
          ConfirmOutcome.success created (total_one * (rooms_needed : ℚ))
            (Int.fdiv (c_out - c_in) minutesPerDay))

/-! ### Editing a booking: `edit_booking_save` (routers/admin.py) -/

/-- Replace the first list element satisfying `p` (SQLAlchemy mutates the row
returned by `.first()`). -/
def updateFirst (p : α → Bool) (f : α → α) : List α → List α
  | [] => []
  | x :: xs => if p x then f x :: xs else x :: updateFirst p f xs

/-- The re-pricing trigger of `edit_booking_save`, translated exactly,
including the source's self-comparisons on `room_type_id` and `rooms_booked`
(`booking.room_type_id != booking.room_type_id or booking.rooms_booked !=
booking.rooms_booked`). -/
def repriceNeeded (booking : Booking) (c_in c_out : Int) : Bool :=
  decide (booking.check_in ≠ c_in ∨ booking.check_out ≠ c_out ∨
    booking.room_type_id ≠ booking.room_type_id ∨
    booking.rooms_booked ≠ booking.rooms_booked)

/-- The field assignments `edit_booking_save` performs on the found booking. -/
def editedBooking (booking : Booking) (guest_name : String)
    (guest_email guest_phone : Option String) (c_in c_out : Int)
    (room_unit_id : Nat) (status : String) (deposit : ℚ) (notes : String)
    (new_total : ℚ) : Booking :=
  { booking with
    guest_name := guest_name, guest_email := guest_email,
    guest_phone := guest_phone, check_in := c_in, check_out := c_out,
    room_unit_id := some room_unit_id, status := status,
    deposit_amount := deposit, notes := notes, total_price := new_total }

/-- `edit_booking_save` from routers/admin.py (duplicated verbatim in
src/main.py).  `none` models the Python crashes (booking not found, or
re-pricing with a missing room). -/
def edit_booking_save (db : DB) (config_id : Nat) (booking_id : Nat)
    (guest_name : String) (guest_email guest_phone : Option String)
    (check_in check_out : Int) (room_unit_id : Nat) (status : String)
    (deposit : ℚ) (notes : String) : Option DB :=
  match db.bookings.find? (fun b => decide (b.id = booking_id ∧
      b.site_config_id = config_id)) with
  | none => none
  | some booking =>
    let c_in := checkInTime check_in
    let c_out := checkOutTime check_out
    let priced : Option ℚ :=
      if repriceNeeded booking c_in c_out then
        calculate_price db config_id booking.room_type_id c_in c_out
          (booking.rooms_booked : ℚ)
      else some booking.total_price
    match priced with
    | none => none
    | some new_total =>
      let new_logs :=
        if booking.status ≠ status then
          [({ site_config_id := config_id, user := "Admin",
              action := "Update Booking",
              details := "Status: " ++ booking.status ++ "->" ++ status } : AuditEntry)]
        else []
      some { db with
        bookings := updateFirst
          (fun b => decide (b.id = booking_id ∧ b.site_config_id = config_id))
          (fun _ => editedBooking booking guest_name guest_email guest_phone
            c_in c_out room_unit_id status deposit notes new_total) db.bookings,
        logs := db.logs ++ new_logs }

/-! ## Outcome projections -/

/-- Whether a confirm outcome is the success page. -/
def isSuccess : ConfirmOutcome → Bool
  | ConfirmOutcome.success _ _ _ => true
  | ConfirmOutcome.failure _ => false

/-- How many Booking rows a confirm outcome carries. -/
def createdCount : ConfirmOutcome → Nat
  | ConfirmOutcome.success created _ _ => created.length
  | ConfirmOutcome.failure _ => 0

/-- Success flag and created-row count of a confirm result. -/
def confirmSummary (r : DB × ConfirmOutcome) : Bool × Nat :=
  (isSuccess r.2, createdCount r.2)

/-! ## The specification's gap order (for comparison with the source's) -/

/-- Modelled from the spec's words (§4.4): the gap of a candidate, where a
unit with no prior booking has a maximal, effectively infinite gap — `none`
denotes that infinite gap. -/
def specGap (db : DB) (c_in : Int) (u : RoomUnit) : Option Int :=
  (lastCheckout db c_in u).map (fun t => (c_in - t) * 60)

/-- Modelled from the spec's words (§4.4): the order on gaps in which `none`
(no prior booking) is the maximal element. -/
def specGapLe : Option Int → Option Int → Bool
  | _, none => true
  | none, some _ => false
  | some x, some y => decide (x ≤ y)

/-! ## Concrete fixtures used by witnesses and counterexamples -/

/-- A room type: 100 per night, various quantities below override this one. -/
def rateRoom : RoomType :=
  { id := 1, site_config_id := 1, price_per_night := 100, total_quantity := 1, capacity := 2 }

/-- A seasonal rate with multiplier 1.5 covering days 1 through 9. -/
def julSeason : SeasonalRate :=
  { site_config_id := 1, room_type_id := some 1, start_date := 1, end_date := 9,
    multiplier := 3 / 2 }

/-- Scenario C fixture: one room at 100, one 1.5x season over days 1..9. -/
def rateDb : DB :=
  { rooms := [rateRoom], units := [], bookings := [], blocks := [], seasons := [julSeason],
    logs := [] }

def unitOne : RoomUnit := { id := 1, room_type_id := 1, label := "U1" }

def unitTwo : RoomUnit := { id := 2, room_type_id := 1, label := "U2" }

/-- A confirmed booking on unit 1 for days 10 to 15 (Scenario B's prior stay). -/
def priorStay : Booking :=
  { id := 1, site_config_id := 1, room_type_id := 1, room_unit_id := some 1,
    guest_name := "X", guest_email := none, guest_phone := none,
    check_in := checkInTime 10, check_out := checkOutTime 15, rooms_booked := 1,
    guests_count := 1, status := "confirmed", total_price := 500,
    deposit_amount := 0, notes := "" }

/-- Scenario B fixture: two units, unit 1 just finishing a stay at day 15. -/
def gapDb : DB :=
  { rooms := [rateRoom], units := [unitOne, unitTwo], bookings := [priorStay],
    blocks := [], seasons := [], logs := [] }

/-- A checked-out booking on unit 1 that ended at minute 0, far over 999999999
seconds before day 11806. -/
def ancientStay : Booking :=
  { id := 1, site_config_id := 1, room_type_id := 1, room_unit_id := some 1,
    guest_name := "X", guest_email := none, guest_phone := none,
    check_in := -1440, check_out := 0, rooms_booked := 1, guests_count := 1,
    status := "checked_out", total_price := 0, deposit_amount := 0, notes := "" }

/-- Counterexample fixture for the gap sentinel: unit 1 has a prior booking
whose gap exceeds 999999999 seconds, unit 2 has none. -/
def ancientDb : DB :=
  { rooms := [rateRoom], units := [unitOne, unitTwo], bookings := [ancientStay],
    blocks := [], seasons := [], logs := [] }

/-- C1 witness fixture: a confirmed booking occupying only the second night
of `[0, 2880)`. -/
def nightOneStay : Booking :=
  { id := 1, site_config_id := 1, room_type_id := 1, room_unit_id := none,
    guest_name := "X", guest_email := none, guest_phone := none,
    check_in := 1440, check_out := 2880, rooms_booked := 1, guests_count := 1,
    status := "confirmed", total_price := 0, deposit_amount := 0, notes := "" }

def availDb : DB :=
  { rooms := [rateRoom], units := [], bookings := [nightOneStay], blocks := [],
    seasons := [], logs := [] }

/-- C4 fixture: one free room, no prior state. -/
def invDb : DB :=
  { rooms := [rateRoom], units := [unitOne], bookings := [], blocks := [], seasons := [],
    logs := [] }

def bigRoom : RoomType :=
  { id := 1, site_config_id := 1, price_per_night := 100, total_quantity := 3, capacity := 2 }

/-- A confirmed booking consuming one aggregate unit for days 10 to 12. -/
def tightStay : Booking :=
  { id := 1, site_config_id := 1, room_type_id := 1, room_unit_id := none,
    guest_name := "X", guest_email := none, guest_phone := none,
    check_in := checkInTime 10, check_out := checkOutTime 12, rooms_booked := 1,
    guests_count := 1, status := "confirmed", total_price := 0,
    deposit_amount := 0, notes := "" }

/-- Scenario E fixture: quantity 3 with one unit taken, so only 2 remain. -/
def scarceDb : DB :=
  { rooms := [bigRoom], units := [], bookings := [tightStay], blocks := [], seasons := [],
    logs := [] }

/-- A booking from another tenant (site 2) sitting on unit 1: invisible to the
aggregate availability count, but a unit-level conflict. -/
def foreignStay : Booking :=
  { id := 1, site_config_id := 2, room_type_id := 1, room_unit_id := some 1,
    guest_name := "X", guest_email := none, guest_phone := none,
    check_in := checkInTime 10, check_out := checkOutTime 12, rooms_booked := 1,
    guests_count := 1, status := "confirmed", total_price := 0,
    deposit_amount := 0, notes := "" }

/-- C6 fixture: aggregate availability passes, but the only unit conflicts. -/
def fragDb : DB :=
  { rooms := [rateRoom], units := [unitOne], bookings := [foreignStay], blocks := [],
    seasons := [], logs := [] }

def twoRoom : RoomType :=
  { id := 1, site_config_id := 1, price_per_night := 100, total_quantity := 2, capacity := 2 }

/-- C7 fixture: two free units, nothing booked. -/
def freeDb : DB :=
  { rooms := [twoRoom], units := [unitOne, unitTwo], bookings := [], blocks := [],
    seasons := [], logs := [] }

/-- C8 fixture booking: stored price 500, days 10 to 12, pending. -/
def storedStay : Booking :=
  { id := 1, site_config_id := 1, room_type_id := 1, room_unit_id := some 1,
    guest_name := "X", guest_email := none, guest_phone := none,
    check_in := checkInTime 10, check_out := checkOutTime 12, rooms_booked := 1,
    guests_count := 1, status := "pending", total_price := 500,
    deposit_amount := 0, notes := "" }

/-- C8 fixture: the stored price 500 disagrees with what re-pricing would
give today (2 nights at 100 = 200). -/
def editDb : DB :=
  { rooms := [rateRoom], units := [unitOne], bookings := [storedStay], blocks := [],
    seasons := [], logs := [] }

/-- The stored price of booking 1 of tenant 1 after an edit of `editDb` that
keeps the dates but flips the status to confirmed. -/
def editedPrice : Option ℚ :=
  (edit_booking_save editDb 1 1 "X" none none 10 12 1 "confirmed" 0 "").bind
    (fun db => (db.bookings.find? (fun b => decide (b.id = 1 ∧ b.site_config_id = 1))).map
      Booking.total_price)

/-! ## Helper lemmas -/

theorem nightsAux_congr : ∀ n m : Nat, ∀ s e : Int,
    (e - s).toNat ≤ n → (e - s).toNat ≤ m → nightsAux n s e = nightsAux m s e := by
  intro n
  induction n with
  | zero =>
    intro m s e hn _
    have hse : ¬ s < e := by omega
    cases m with
    | zero => rfl
    | succ m => simp [nightsAux, hse]
  | succ n ih =>
    intro m s e hn hm
    cases m with
    | zero =>
      have hse : ¬ s < e := by omega
      simp [nightsAux, hse]
    | succ m =>
      by_cases hse : s < e
      · have h1 : (e - (s + minutesPerDay)).toNat ≤ n := by
          simp only [minutesPerDay] at *; omega
        have h2 : (e - (s + minutesPerDay)).toNat ≤ m := by
          simp only [minutesPerDay] at *; omega
        simp [nightsAux, hse, ih m (s + minutesPerDay) e h1 h2]
      · simp [nightsAux, hse]

theorem nightsList_pos {s e : Int} (h : s < e) :
    nightsList s e = s :: nightsList (s + minutesPerDay) e := by
  unfold nightsList
  have h1 : (e - s).toNat = ((e - s).toNat - 1) + 1 := by omega
  rw [h1]
  simp only [nightsAux, h, if_true]
  congr 1
  apply nightsAux_congr
  · simp only [minutesPerDay]; omega
  · omega

theorem nightsList_neg {s e : Int} (h : ¬ s < e) : nightsList s e = [] := by
  unfold nightsList
  have h1 : (e - s).toNat = 0 := by omega
  rw [h1]
  rfl

theorem checkLoop_exists_nonpos (avail : Int → Int) :
    ∀ (l : List Int) (m : Int), (∃ c ∈ l, avail c ≤ 0) →
      checkLoop avail l m = (false, 0) := by
  intro l
  induction l with
  | nil => intro m h; simp at h
  | cons c rest ih =>
    intro m h
    by_cases hc : avail c ≤ 0
    · simp [checkLoop, hc]
    · have hrest : ∃ x ∈ rest, avail x ≤ 0 := by
        rcases h with ⟨x, hx, hxle⟩
        rcases List.mem_cons.mp hx with rfl | hmem
        · exact absurd hxle hc
        · exact ⟨x, hmem, hxle⟩
      simp [checkLoop, hc, ih _ hrest]

theorem checkLoop_all_pos (avail : Int → Int) :
    ∀ (l : List Int) (m : Int), (∀ c ∈ l, 0 < avail c) →
      checkLoop avail l m
        = (true, l.foldl (fun acc c => if avail c < acc then avail c else acc) m) := by
  intro l
  induction l with
  | nil => intro m _; rfl
  | cons c rest ih =>
    intro m h
    have hc : ¬ avail c ≤ 0 := by
      have := h c (List.mem_cons_self c rest)
      omega
    have hrest : ∀ x ∈ rest, 0 < avail x := fun x hx => h x (List.mem_cons_of_mem c hx)
    simp [checkLoop, hc, ih _ hrest, List.foldl_cons]

theorem foldl_min_char (f : Int → Int) :
    ∀ (l : List Int) (a : Int),
      (l.foldl (fun acc c => if f c < acc then f c else acc) a = a ∨
        l.foldl (fun acc c => if f c < acc then f c else acc) a ∈ l.map f) ∧
      l.foldl (fun acc c => if f c < acc then f c else acc) a ≤ a ∧
      ∀ c ∈ l, l.foldl (fun acc c => if f c < acc then f c else acc) a ≤ f c := by
  intro l
  induction l with
  | nil => intro a; simp
  | cons c rest ih =>
    intro a
    obtain ⟨hmem, hle, hdom⟩ := ih (if f c < a then f c else a)
    have hstep : (if f c < a then f c else a) ≤ a := by split <;> omega
    have hstepc : (if f c < a then f c else a) ≤ f c := by split <;> omega
    refine ⟨?_, ?_, ?_⟩
    · rcases hmem with heq | hmem
      · rw [List.foldl_cons, heq]
        split
        · right; exact List.mem_map_of_mem f (List.mem_cons_self c rest)
        · left; rfl
      · right
        rw [List.foldl_cons]
        rcases List.mem_map.mp hmem with ⟨x, hx, hfx⟩
        exact List.mem_map.mpr ⟨x, List.mem_cons_of_mem c hx, hfx⟩
    · rw [List.foldl_cons]; omega
    · intro x hx
      rcases List.mem_cons.mp hx with rfl | hmem2
      · rw [List.foldl_cons]; omega
      · rw [List.foldl_cons]; exact hdom x hmem2

theorem occupiedCount_nonneg (db : DB) (config_id room_type_id : Nat) (curr : Int) :
    0 ≤ occupiedCount db config_id room_type_id curr :=
  Int.natCast_nonneg _

theorem blockedCount_nonneg (db : DB) (room_type_id : Nat) (curr : Int) :
    0 ≤ blockedCount db room_type_id curr := by
  unfold blockedCount
  apply List.sum_nonneg
  intro x hx
  rcases List.mem_map.mp hx with ⟨m, _, rfl⟩
  exact Int.natCast_nonneg _

/-! ## C1 and C10: the availability engine -/

/-- C1: over a non-degenerate range, if every night of `[start, end)` has
`total - occupied - blocked > 0` then `check_inventory_availability` returns
`(True, total - M)` where `M` is the maximum over the nights of
`occupied + blocked` (so the returned count is the minimum per-night
remainder), and if some night has `total - occupied - blocked ≤ 0` it returns
`(False, 0)`. -/
theorem check_inventory_availability_correct (db : DB) (config_id room_type_id : Nat)
    (s e : Int) (total_qty : Nat) (hse : s < e) :
    ((∀ c ∈ nightsList s e,
        0 < (total_qty : Int) - occupiedCount db config_id room_type_id c
          - blockedCount db room_type_id c) →
      ∃ M ∈ (nightsList s e).map (fun c =>
          occupiedCount db config_id room_type_id c + blockedCount db room_type_id c),
        (∀ x ∈ (nightsList s e).map (fun c =>
            occupiedCount db config_id room_type_id c + blockedCount db room_type_id c),
          x ≤ M) ∧
        check_inventory_availability db config_id room_type_id s e total_qty
          = (true, (total_qty : Int) - M))
    ∧ ((∃ c ∈ nightsList s e,
        (total_qty : Int) - occupiedCount db config_id room_type_id c
          - blockedCount db room_type_id c ≤ 0) →
      check_inventory_availability db config_id room_type_id s e total_qty
        = (false, 0)) := by
  constructor
  · intro hpos
    have hpos' : ∀ c ∈ nightsList s e,
        0 < availableTonight db config_id room_type_id total_qty c := by
      intro c hc
      have := hpos c hc
      simpa [availableTonight] using this
    have hfold := checkLoop_all_pos (availableTonight db config_id room_type_id total_qty)
      (nightsList s e) (total_qty : Int) hpos'
    obtain ⟨hmem, hle, hdom⟩ := foldl_min_char
      (availableTonight db config_id room_type_id total_qty) (nightsList s e) (total_qty : Int)
    have hcons := nightsList_pos hse
    have hsmem : s ∈ nightsList s e := by rw [hcons]; exact List.mem_cons_self _ _
    -- the final accumulator is attained at some night
    have hattain : ∃ c0 ∈ nightsList s e,
        availableTonight db config_id room_type_id total_qty c0
        = (nightsList s e).foldl
            (fun acc c => if availableTonight db config_id room_type_id total_qty c < acc
              then availableTonight db config_id room_type_id total_qty c
              else acc) (total_qty : Int) := by
      rcases hmem with heq | hmem
      · refine ⟨s, hsmem, ?_⟩
        have h1 := hdom s hsmem
        have h2 := occupiedCount_nonneg db config_id room_type_id s
        have h3 := blockedCount_nonneg db room_type_id s
        have hdefs : availableTonight db config_id room_type_id total_qty s
            = (total_qty : Int) - occupiedCount db config_id room_type_id s
              - blockedCount db room_type_id s := rfl
        omega
      · rcases List.mem_map.mp hmem with ⟨c0, hc0, hfc0⟩
        exact ⟨c0, hc0, hfc0⟩
    rcases hattain with ⟨c0, hc0, hfc0⟩
    have hdef0 : availableTonight db config_id room_type_id total_qty c0
        = (total_qty : Int) - occupiedCount db config_id room_type_id c0
          - blockedCount db room_type_id c0 := rfl
    refine ⟨occupiedCount db config_id room_type_id c0 + blockedCount db room_type_id c0,
      List.mem_map_of_mem _ hc0, ?_, ?_⟩
    · intro x hx
      rcases List.mem_map.mp hx with ⟨c, hc, rfl⟩
      have hdomc := hdom c hc
      have hdefc : availableTonight db config_id room_type_id total_qty c
          = (total_qty : Int) - occupiedCount db config_id room_type_id c
            - blockedCount db room_type_id c := rfl
      omega
    · unfold check_inventory_availability
      rw [hfold]
      congr 1
      omega
  · intro hneg
    apply checkLoop_exists_nonpos
    rcases hneg with ⟨c, hc, hcle⟩
    refine ⟨c, hc, ?_⟩
    simpa [availableTonight] using hcle

/-- C10: a degenerate range (`start ≥ end`) makes the per-night loop body
unreachable, so `check_inventory_availability` reports full capacity as
available regardless of bookings and maintenance blocks. -/
theorem check_inventory_availability_degenerate (db : DB) (config_id room_type_id : Nat)
    (s e : Int) (total_qty : Nat) (h : e ≤ s) :
    check_inventory_availability db config_id room_type_id s e total_qty
      = (true, (total_qty : Int)) := by
  unfold check_inventory_availability
  rw [nightsList_neg (by omega)]
  rfl

/-- Witness for C1 at a concrete store: two units of capacity, a booking on
the second night only, so the minimum remainder is 1 and the maximal load 1. -/
theorem check_inventory_availability_correct_witness :
    ∃ M ∈ (nightsList 0 2880).map (fun c =>
        occupiedCount availDb 1 1 c + blockedCount availDb 1 c),
      (∀ x ∈ (nightsList 0 2880).map (fun c =>
          occupiedCount availDb 1 1 c + blockedCount availDb 1 c), x ≤ M) ∧
      check_inventory_availability availDb 1 1 0 2880 2 = (true, ((2 : Nat) : Int) - M) :=
  (check_inventory_availability_correct availDb 1 1 0 2880 2 (by decide)).1
    (by with_unfolding_all decide)

/-- Witness for C10: an inverted range (day 10's 14:00 start, 11:00 end) is
reported available at full capacity even on a store with a booking. -/
theorem check_inventory_availability_degenerate_witness :
    check_inventory_availability availDb 1 1 (checkInTime 10) (checkOutTime 10) 5
      = (true, ((5 : Nat) : Int)) :=
  check_inventory_availability_degenerate availDb 1 1 (checkInTime 10) (checkOutTime 10) 5
    (by decide)

/-! ## C2 and C9: the pricing engine -/

theorem foldl_add_eq_sum (f : Int → ℚ) :
    ∀ (l : List Int) (a : ℚ), l.foldl (fun total curr => total + f curr) a
      = a + (l.map f).sum := by
  intro l
  induction l with
  | nil => intro a; simp
  | cons c rest ih =>
    intro a
    rw [List.foldl_cons, ih, List.map_cons, List.sum_cons]
    ring

/-- C2: with the room present, `calculate_price` is the sum over the nights of
`[start, end)` (one calendar day steps) of base price times the Rate Calendar
multiplier (room-type season first, wildcard season second, else 1),
multiplied by the unit count at the end. -/
theorem calculate_price_spec (db : DB) (config_id room_id : Nat) (room : RoomType)
    (s e : Int) (count : ℚ) (hroom : findRoom db config_id room_id = some room) :
    calculate_price db config_id room_id s e count
      = some (((nightsList s e).map (nightlyPrice db config_id room_id room)).sum * count) := by
  unfold calculate_price
  rw [hroom]
  show some (((nightsList s e).foldl
    (fun total curr => total + nightlyPrice db config_id room_id room curr) 0) * count) = _
  rw [foldl_add_eq_sum]
  simp

/-- Witness for C2, which is also the spec's Scenario C: base price 100,
multiplier 1.5 over days 1..9, two nights `[day 5, day 7)` for one unit
price to 300. -/
theorem calculate_price_spec_witness :
    findRoom rateDb 1 1 = some rateRoom ∧
    calculate_price rateDb 1 1 (5 * 1440) (7 * 1440) 1 = some 300 := by
  constructor
  · with_unfolding_all decide
  · rw [calculate_price_spec rateDb 1 1 rateRoom (5 * 1440) (7 * 1440) 1
      (by with_unfolding_all decide)]
    with_unfolding_all decide

theorem nightsList_append : ∀ (k : Nat) (s m e : Int), (m - s).toNat = k → s ≤ m → m ≤ e →
    (m - s) % minutesPerDay = 0 → nightsList s e = nightsList s m ++ nightsList m e := by
  intro k
  induction k using Nat.strong_induction_on with
  | _ k ih =>
    intro s m e hk h1 h2 hd
    by_cases hsm : s < m
    · have hse : s < e := lt_of_lt_of_le hsm h2
      rw [nightsList_pos hse, nightsList_pos hsm]
      have hstep : s + minutesPerDay ≤ m := by
        simp only [minutesPerDay] at hd ⊢; omega
      have hmod : (m - (s + minutesPerDay)) % minutesPerDay = 0 := by
        simp only [minutesPerDay] at hd ⊢; omega
      have hlt : (m - (s + minutesPerDay)).toNat < k := by
        simp only [minutesPerDay]; omega
      rw [ih _ hlt (s + minutesPerDay) m e rfl hstep h2 hmod]
      simp
    · have hm : s = m := by omega
      subst hm
      rw [nightsList_neg (show ¬ (s < s) by omega)]
      simp

/-- C9: pricing is additive over a day-aligned split: for dates
`d1 < d2 < d3`, the single-unit price of `[d1, d3)` is exactly the sum of the
prices of `[d1, d2)` and `[d2, d3)`. -/
theorem calculate_price_additive (db : DB) (config_id room_id : Nat) (room : RoomType)
    (hroom : findRoom db config_id room_id = some room) (d1 d2 d3 : Int)
    (h12 : d1 < d2) (h23 : d2 < d3) :
    ∃ p q r,
      calculate_price db config_id room_id (d1 * minutesPerDay) (d2 * minutesPerDay) 1
        = some p ∧
      calculate_price db config_id room_id (d2 * minutesPerDay) (d3 * minutesPerDay) 1
        = some q ∧
      calculate_price db config_id room_id (d1 * minutesPerDay) (d3 * minutesPerDay) 1
        = some r ∧
      r = p + q := by
  refine ⟨_, _, _, calculate_price_spec db config_id room_id room _ _ 1 hroom,
    calculate_price_spec db config_id room_id room _ _ 1 hroom,
    calculate_price_spec db config_id room_id room _ _ 1 hroom, ?_⟩
  have hsplit := nightsList_append ((d2 * minutesPerDay - d1 * minutesPerDay).toNat)
    (d1 * minutesPerDay) (d2 * minutesPerDay) (d3 * minutesPerDay) rfl
    (by simp only [minutesPerDay]; omega)
    (by simp only [minutesPerDay]; omega)
    (by simp only [minutesPerDay]; omega)
  rw [hsplit, List.map_append, List.sum_append]
  ring

/-- Witness for C9 at the Scenario C store with the split `5 < 6 < 7`. -/
theorem calculate_price_additive_witness :
    ∃ p q r,
      calculate_price rateDb 1 1 (5 * minutesPerDay) (6 * minutesPerDay) 1 = some p ∧
      calculate_price rateDb 1 1 (6 * minutesPerDay) (7 * minutesPerDay) 1 = some q ∧
      calculate_price rateDb 1 1 (5 * minutesPerDay) (7 * minutesPerDay) 1 = some r ∧
      r = p + q :=
  calculate_price_additive rateDb 1 1 rateRoom (by with_unfolding_all decide) 5 6 7
    (by decide) (by decide)

/-! ## C3: the gap-minimizing unit assignment -/

theorem foldl_bestStep_spec (db : DB) (c_in : Int) :
    ∀ (l : List RoomUnit) (u0 : RoomUnit),
      ∃ u, l.foldl (bestStep db c_in) (some u0, some (gapSeconds db c_in u0))
          = (some u, some (gapSeconds db c_in u)) ∧
        (u = u0 ∨ u ∈ l) ∧
        gapSeconds db c_in u ≤ gapSeconds db c_in u0 ∧
        ∀ v ∈ l, gapSeconds db c_in u ≤ gapSeconds db c_in v := by
  intro l
  induction l with
  | nil => intro u0; exact ⟨u0, rfl, Or.inl rfl, le_refl _, by simp⟩
  | cons c rest ih =>
    intro u0
    by_cases h : gapSeconds db c_in c < gapSeconds db c_in u0
    · have hstep : bestStep db c_in (some u0, some (gapSeconds db c_in u0)) c
          = (some c, some (gapSeconds db c_in c)) := by
        simp [bestStep, h]
      obtain ⟨u, hfold, hu, hle, hdom⟩ := ih c
      refine ⟨u, ?_, ?_, ?_, ?_⟩
      · rw [List.foldl_cons, hstep]; exact hfold
      · rcases hu with rfl | hmem
        · exact Or.inr (List.mem_cons_self _ _)
        · exact Or.inr (List.mem_cons_of_mem _ hmem)
      · omega
      · intro v hv
        rcases List.mem_cons.mp hv with rfl | hmem
        · exact hle
        · exact hdom v hmem
    · have hstep : bestStep db c_in (some u0, some (gapSeconds db c_in u0)) c
          = (some u0, some (gapSeconds db c_in u0)) := by
        simp [bestStep, h]
      obtain ⟨u, hfold, hu, hle, hdom⟩ := ih u0
      refine ⟨u, ?_, ?_, hle, ?_⟩
      · rw [List.foldl_cons, hstep]; exact hfold
      · rcases hu with rfl | hmem
        · exact Or.inl rfl
        · exact Or.inr (List.mem_cons_of_mem _ hmem)
      · intro v hv
        rcases List.mem_cons.mp hv with rfl | hmem
        · omega
        · exact hdom v hmem

theorem pickBest_min (db : DB) (c_in : Int) (candidates : List RoomUnit)
    (h : candidates ≠ []) :
    ∃ u, pickBest db c_in candidates = some u ∧ u ∈ candidates ∧
      ∀ v ∈ candidates, gapSeconds db c_in u ≤ gapSeconds db c_in v := by
  cases candidates with
  | nil => exact absurd rfl h
  | cons c rest =>
    have hstep0 : bestStep db c_in ((none : Option RoomUnit), (none : Option Int)) c
        = (some c, some (gapSeconds db c_in c)) := by simp [bestStep]
    obtain ⟨u, hfold, hu, hle, hdom⟩ := foldl_bestStep_spec db c_in rest c
    refine ⟨u, ?_, ?_, ?_⟩
    · unfold pickBest
      rw [List.foldl_cons, hstep0, hfold]
    · rcases hu with rfl | hmem
      · exact List.mem_cons_self _ _
      · exact List.mem_cons_of_mem _ hmem
    · intro v hv
      rcases List.mem_cons.mp hv with rfl | hmem
      · exact hle
      · exact hdom v hmem

/-- C3 (amended): in each assignment round with a non-empty candidate set,
the loop appends a candidate whose gap score is minimal among that round's
candidates, where the score of a unit with its most recent prior checkout
at time `t` is `(check_in - t)` in seconds and a unit with no prior booking
scores the source's sentinel `999999999.0` seconds — a large but finite
stand-in for the spec's infinite gap. -/
theorem assign_round_min_gap (db : DB) (all_units : List RoomUnit) (c_in c_out : Int)
    (n : Nat) (acc : List (Option RoomUnit))
    (h : candidatesFor db c_in c_out all_units acc ≠ []) :
    ∃ u, assignLoop db all_units c_in c_out (n + 1) acc
        = assignLoop db all_units c_in c_out n (acc ++ [some u]) ∧
      u ∈ candidatesFor db c_in c_out all_units acc ∧
      ∀ v ∈ candidatesFor db c_in c_out all_units acc,
        gapSeconds db c_in u ≤ gapSeconds db c_in v := by
  obtain ⟨u, hpick, hmem, hdom⟩ := pickBest_min db c_in _ h
  refine ⟨u, ?_, hmem, hdom⟩
  show assignLoop db all_units c_in c_out n
      (acc ++ [pickBest db c_in (candidatesFor db c_in c_out all_units acc)]) = _
  rw [hpick]

/-- Witness for C3, which is also the spec's Scenario B: for a stay over days
15..18, unit 1 (whose confirmed booking ends at day 15's 11:00, a 3-hour gap)
is selected over the idle unit 2. -/
theorem assign_round_min_gap_witness :
    (∃ u, assignLoop gapDb [unitOne, unitTwo] (checkInTime 15) (checkOutTime 18) 1 []
        = assignLoop gapDb [unitOne, unitTwo] (checkInTime 15) (checkOutTime 18) 0
          ([] ++ [some u]) ∧
      u ∈ candidatesFor gapDb (checkInTime 15) (checkOutTime 18) [unitOne, unitTwo] [] ∧
      ∀ v ∈ candidatesFor gapDb (checkInTime 15) (checkOutTime 18) [unitOne, unitTwo] [],
        gapSeconds gapDb (checkInTime 15) u ≤ gapSeconds gapDb (checkInTime 15) v) ∧
    pickBest gapDb (checkInTime 15)
      (candidatesFor gapDb (checkInTime 15) (checkOutTime 18) [unitOne, unitTwo] [])
      = some unitOne := by
  constructor
  · exact assign_round_min_gap gapDb [unitOne, unitTwo] (checkInTime 15) (checkOutTime 18)
      0 [] (by with_unfolding_all decide)
  · with_unfolding_all decide

/-- Counterexample to C3 as stated: when unit 1's most recent prior checkout
lies more than 999999999 seconds in the past (here minute 0, with check-in at
day 11806), the round selects the idle unit 2, whose spec-side gap is the
maximal (infinite) one — so the selected unit does not minimize the gap in
the claim's ordering, in which a unit with no prior booking loses to any
unit with one. -/
theorem assign_round_spec_gap_cex :
    assignLoop ancientDb [unitOne, unitTwo] (checkInTime 11806) (checkOutTime 11808) 1 []
      = [some unitTwo] ∧
    unitOne ∈ candidatesFor ancientDb (checkInTime 11806) (checkOutTime 11808)
      [unitOne, unitTwo] [] ∧
    specGapLe (specGap ancientDb (checkInTime 11806) unitTwo)
      (specGap ancientDb (checkInTime 11806) unitOne) = false := by
  with_unfolding_all decide

/-! ## C4: the missing inverted-range validation -/

/-- C4 (code-bug evidence): the guest confirm handler in routers/public.py
never validates `check_out > check_in`.  For the failing input check-in =
check-out = day 10 (so the checkout datetime, 11:00, precedes the check-in
datetime, 14:00), one Booking row is created instead of an InvalidRange
failure: the per-night availability and pricing loops are never entered, so
the degenerate range sails through with full availability and a zero price. -/
theorem book_confirm_inverted_range_creates_booking :
    checkOutTime 10 < checkInTime 10 ∧
    (book_confirm invDb 1 1 "G" none none 10 10 1 1).map confirmSummary
      = some (true, 1) := by
  with_unfolding_all decide

/-! ## C5, C6, C7: the booking orchestration -/

/-- C5: whenever the availability check reports unavailable, or reports a
minimum per-night remainder below `rooms_needed`, `book_confirm` returns the
insufficient-inventory failure and the store is returned unchanged — zero
Booking rows are created. -/
theorem book_confirm_insufficient (db : DB) (config_id room_id : Nat)
    (guest_name : String) (guest_email guest_phone : Option String)
    (check_in check_out : Int) (rooms_needed guests_count : Nat) (room : RoomType)
    (hroom : db.rooms.find? (fun r => decide (r.id = room_id)) = some room)
    (hfail : ¬ (check_inventory_availability db config_id room_id (checkInTime check_in)
        (checkOutTime check_out) room.total_quantity).1 = true ∨
      (check_inventory_availability db config_id room_id (checkInTime check_in)
        (checkOutTime check_out) room.total_quantity).2 < (rooms_needed : Int)) :
    book_confirm db config_id room_id guest_name guest_email guest_phone
      check_in check_out rooms_needed guests_count
      = some (db, ConfirmOutcome.failure "Not enough rooms available for these dates.") := by
  unfold book_confirm
  rw [hroom]
  dsimp only
  rw [if_pos hfail]

/-- Witness for C5, which is also the spec's Scenario E: 3 rooms requested
while a confirmed booking leaves only 2 free on every night of the stay; the
store comes back unchanged. -/
theorem book_confirm_insufficient_witness :
    book_confirm scarceDb 1 1 "G" none none 10 12 3 1
      = some (scarceDb,
          ConfirmOutcome.failure "Not enough rooms available for these dates.") :=
  book_confirm_insufficient scarceDb 1 1 "G" none none 10 12 3 1 bigRoom
    (by with_unfolding_all decide) (Or.inr (by with_unfolding_all decide))

/-- The success path of `book_confirm` in one equation. -/
theorem book_confirm_success_eq (db : DB) (config_id room_id : Nat)
    (guest_name : String) (guest_email guest_phone : Option String)
    (check_in check_out : Int) (rooms_needed guests_count : Nat) (room : RoomType)
    (total_one : ℚ)
    (hroom : db.rooms.find? (fun r => decide (r.id = room_id)) = some room)
    (hpass : ¬ (¬ (check_inventory_availability db config_id room_id (checkInTime check_in)
        (checkOutTime check_out) room.total_quantity).1 = true ∨
      (check_inventory_availability db config_id room_id (checkInTime check_in)
        (checkOutTime check_out) room.total_quantity).2 < (rooms_needed : Int)))
    (hprice : calculate_price db config_id room_id (checkInTime check_in)
        (checkOutTime check_out) 1 = some total_one) :
    book_confirm db config_id room_id guest_name guest_email guest_phone
      check_in check_out rooms_needed guests_count
      = some
        ({ db with
            bookings := db.bookings ++ guestRows db config_id room_id guest_name
              guest_email guest_phone (checkInTime check_in) (checkOutTime check_out)
              total_one guests_count rooms_needed,
            logs := db.logs ++ guestLogs db config_id room_id guest_name
              (checkInTime check_in) (checkOutTime check_out) rooms_needed },
          ConfirmOutcome.success
            (guestRows db config_id room_id guest_name guest_email guest_phone
              (checkInTime check_in) (checkOutTime check_out) total_one guests_count
              rooms_needed)
            (total_one * (rooms_needed : ℚ))
            (Int.fdiv (checkOutTime check_out - checkInTime check_in) minutesPerDay)) := by
  unfold book_confirm
  rw [hroom]
  dsimp only
  rw [if_neg hpass, hprice]

theorem sum_map_const_rat (p : ℚ) : ∀ n : Nat,
    ((List.range n).map (fun _ => p)).sum = p * (n : ℚ) := by
  intro n
  induction n with
  | zero => simp
  | succ n ih =>
    rw [List.range_succ, List.map_append, List.sum_append, ih]
    push_cast
    simp
    ring

/-- C7: on the success path, `book_confirm` persists exactly `rooms_needed`
Booking rows, each carrying the single-unit price (the pricing engine's
result for unit count 1) and `rooms_booked = 1`; the rows' prices sum to the
guest-facing total, which is the single-unit price times `rooms_needed`. -/
theorem book_confirm_per_unit_pricing (db : DB) (config_id room_id : Nat)
    (guest_name : String) (guest_email guest_phone : Option String)
    (check_in check_out : Int) (rooms_needed guests_count : Nat) (room : RoomType)
    (total_one : ℚ)
    (hroom : db.rooms.find? (fun r => decide (r.id = room_id)) = some room)
    (hpass : ¬ (¬ (check_inventory_availability db config_id room_id (checkInTime check_in)
        (checkOutTime check_out) room.total_quantity).1 = true ∨
      (check_inventory_availability db config_id room_id (checkInTime check_in)
        (checkOutTime check_out) room.total_quantity).2 < (rooms_needed : Int)))
    (hprice : calculate_price db config_id room_id (checkInTime check_in)
        (checkOutTime check_out) 1 = some total_one) :
    ∃ db2,
      book_confirm db config_id room_id guest_name guest_email guest_phone
        check_in check_out rooms_needed guests_count
        = some (db2, ConfirmOutcome.success
            (guestRows db config_id room_id guest_name guest_email guest_phone
              (checkInTime check_in) (checkOutTime check_out) total_one guests_count
              rooms_needed)
            (total_one * (rooms_needed : ℚ))
            (Int.fdiv (checkOutTime check_out - checkInTime check_in) minutesPerDay)) ∧
      (guestRows db config_id room_id guest_name guest_email guest_phone
        (checkInTime check_in) (checkOutTime check_out) total_one guests_count
        rooms_needed).length = rooms_needed ∧
      (∀ b ∈ guestRows db config_id room_id guest_name guest_email guest_phone
          (checkInTime check_in) (checkOutTime check_out) total_one guests_count
          rooms_needed, b.total_price = total_one ∧ b.rooms_booked = 1) ∧
      ((guestRows db config_id room_id guest_name guest_email guest_phone
          (checkInTime check_in) (checkOutTime check_out) total_one guests_count
          rooms_needed).map Booking.total_price).sum
        = total_one * (rooms_needed : ℚ) := by
  refine ⟨_, book_confirm_success_eq db config_id room_id guest_name guest_email
    guest_phone check_in check_out rooms_needed guests_count room total_one
    hroom hpass hprice, ?_, ?_, ?_⟩
  · simp [guestRows]
  · intro b hb
    unfold guestRows at hb
    rcases List.mem_map.mp hb with ⟨i, _, rfl⟩
    exact ⟨rfl, rfl⟩
  · have hmap : (guestRows db config_id room_id guest_name guest_email guest_phone
        (checkInTime check_in) (checkOutTime check_out) total_one guests_count
        rooms_needed).map Booking.total_price
        = (List.range rooms_needed).map (fun _ => total_one) := by
      unfold guestRows
      rw [List.map_map]
      rfl
    rw [hmap, sum_map_const_rat]

/-- Witness for C7: two rooms confirmed on an empty store; each row carries
the 2-night single-unit price 200 and the guest-facing total is 400. -/
theorem book_confirm_per_unit_pricing_witness :
    ∃ db2,
      book_confirm freeDb 1 1 "G" none none 10 12 2 1
        = some (db2, ConfirmOutcome.success
            (guestRows freeDb 1 1 "G" none none (checkInTime 10) (checkOutTime 12) 200 1 2)
            ((200 : ℚ) * ((2 : Nat) : ℚ))
            (Int.fdiv (checkOutTime 12 - checkInTime 10) minutesPerDay)) ∧
      (guestRows freeDb 1 1 "G" none none (checkInTime 10) (checkOutTime 12) 200 1 2).length
        = 2 ∧
      (∀ b ∈ guestRows freeDb 1 1 "G" none none (checkInTime 10) (checkOutTime 12) 200 1 2,
        b.total_price = 200 ∧ b.rooms_booked = 1) ∧
      ((guestRows freeDb 1 1 "G" none none (checkInTime 10) (checkOutTime 12) 200 1 2).map
          Booking.total_price).sum = (200 : ℚ) * ((2 : Nat) : ℚ) :=
  book_confirm_per_unit_pricing freeDb 1 1 "G" none none 10 12 2 1 twoRoom 200
    (by with_unfolding_all decide) (by with_unfolding_all decide)
    (by with_unfolding_all decide)

/-- C6: on the success path the orchestrator never aborts over assignment:
it persists one Booking row per requested room, the row of each round carries
exactly that round's unit (so a round with no candidates yields a persisted
row with a null `room_unit_id`), and the audit entry of such a round records
the fragmentation event. -/
theorem book_confirm_fragmentation_tolerant (db : DB) (config_id room_id : Nat)
    (guest_name : String) (guest_email guest_phone : Option String)
    (check_in check_out : Int) (rooms_needed guests_count : Nat) (room : RoomType)
    (total_one : ℚ)
    (hroom : db.rooms.find? (fun r => decide (r.id = room_id)) = some room)
    (hpass : ¬ (¬ (check_inventory_availability db config_id room_id (checkInTime check_in)
        (checkOutTime check_out) room.total_quantity).1 = true ∨
      (check_inventory_availability db config_id room_id (checkInTime check_in)
        (checkOutTime check_out) room.total_quantity).2 < (rooms_needed : Int)))
    (hprice : calculate_price db config_id room_id (checkInTime check_in)
        (checkOutTime check_out) 1 = some total_one) :
    ∃ db2,
      book_confirm db config_id room_id guest_name guest_email guest_phone
        check_in check_out rooms_needed guests_count
        = some (db2, ConfirmOutcome.success
            (guestRows db config_id room_id guest_name guest_email guest_phone
              (checkInTime check_in) (checkOutTime check_out) total_one guests_count
              rooms_needed)
            (total_one * (rooms_needed : ℚ))
            (Int.fdiv (checkOutTime check_out - checkInTime check_in) minutesPerDay)) ∧
      (guestRows db config_id room_id guest_name guest_email guest_phone
        (checkInTime check_in) (checkOutTime check_out) total_one guests_count
        rooms_needed).length = rooms_needed ∧
      db2.bookings = db.bookings ++ guestRows db config_id room_id guest_name
        guest_email guest_phone (checkInTime check_in) (checkOutTime check_out)
        total_one guests_count rooms_needed ∧
      (∀ i, i < rooms_needed →
        ((guestRows db config_id room_id guest_name guest_email guest_phone
            (checkInTime check_in) (checkOutTime check_out) total_one guests_count
            rooms_needed)[i]?).map Booking.room_unit_id
          = some (((guestAssignments db room_id (checkInTime check_in)
              (checkOutTime check_out) rooms_needed).getD i none).map RoomUnit.id)) ∧
      (∀ i, i < rooms_needed →
        (guestAssignments db room_id (checkInTime check_in) (checkOutTime check_out)
          rooms_needed).getD i none = none →
        (db2.logs[db.logs.length + i]?).map AuditEntry.details
          = some (guest_name ++ " booked " ++ "UNASSIGNED (Fragmentation)")) := by
  refine ⟨_, book_confirm_success_eq db config_id room_id guest_name guest_email
    guest_phone check_in check_out rooms_needed guests_count room total_one
    hroom hpass hprice, ?_, rfl, ?_, ?_⟩
  · simp [guestRows]
  · intro i hi
    unfold guestRows
    rw [List.getElem?_map, List.getElem?_range hi]
    simp only [Option.map_some']
    rfl
  · intro i hi hnone
    show ((db.logs ++ guestLogs db config_id room_id guest_name (checkInTime check_in)
        (checkOutTime check_out) rooms_needed)[db.logs.length + i]?).map
      AuditEntry.details = _
    rw [List.getElem?_append_right (by omega)]
    have hsub : db.logs.length + i - db.logs.length = i := by omega
    rw [hsub]
    unfold guestLogs
    rw [List.getElem?_map, List.getElem?_range hi]
    simp only [Option.map_some']
    rw [hnone]
    rfl

/-- Witness for C6: aggregate availability passes (the conflicting booking
belongs to another tenant and is invisible to the occupancy count), yet the
single unit conflicts, so the one round gets no candidate; the booking is
still created, with a null unit and a fragmentation audit entry. -/
theorem book_confirm_fragmentation_tolerant_witness :
    (∃ db2,
      book_confirm fragDb 1 1 "G" none none 10 12 1 1
        = some (db2, ConfirmOutcome.success
            (guestRows fragDb 1 1 "G" none none (checkInTime 10) (checkOutTime 12) 200 1 1)
            ((200 : ℚ) * ((1 : Nat) : ℚ))
            (Int.fdiv (checkOutTime 12 - checkInTime 10) minutesPerDay)) ∧
      (guestRows fragDb 1 1 "G" none none (checkInTime 10) (checkOutTime 12) 200 1 1).length
        = 1 ∧
      db2.bookings = fragDb.bookings ++ guestRows fragDb 1 1 "G" none none
        (checkInTime 10) (checkOutTime 12) 200 1 1 ∧
      (∀ i, i < 1 →
        ((guestRows fragDb 1 1 "G" none none (checkInTime 10) (checkOutTime 12)
            200 1 1)[i]?).map Booking.room_unit_id
          = some (((guestAssignments fragDb 1 (checkInTime 10) (checkOutTime 12)
              1).getD i none).map RoomUnit.id)) ∧
      (∀ i, i < 1 →
        (guestAssignments fragDb 1 (checkInTime 10) (checkOutTime 12) 1).getD i none
          = none →
        (db2.logs[fragDb.logs.length + i]?).map AuditEntry.details
          = some ("G" ++ " booked " ++ "UNASSIGNED (Fragmentation)"))) ∧
    guestAssignments fragDb 1 (checkInTime 10) (checkOutTime 12) 1 = [none] := by
  constructor
  · exact book_confirm_fragmentation_tolerant fragDb 1 1 "G" none none 10 12 1 1
      rateRoom 200 (by with_unfolding_all decide) (by with_unfolding_all decide)
      (by with_unfolding_all decide)
  · with_unfolding_all decide

/-! ## C8: the edit-booking re-pricing trigger -/

theorem find?_updateFirst {α : Type} (p : α → Bool) (f : α → α) :
    ∀ (l : List α) (x : α), l.find? p = some x → p (f x) = true →
      (updateFirst p f l).find? p = some (f x) := by
  intro l
  induction l with
  | nil => intro x hx _; simp at hx
  | cons y ys ih =>
    intro x hx hf
    cases hy : p y with
    | true =>
      rw [List.find?_cons_of_pos _ hy] at hx
      injection hx with hx
      subst hx
      unfold updateFirst
      rw [if_pos hy]
      exact List.find?_cons_of_pos _ hf
    | false =>
      rw [List.find?_cons_of_neg _ (by simp [hy])] at hx
      unfold updateFirst
      rw [if_neg (by simp [hy])]
      rw [List.find?_cons_of_neg _ (by simp [hy])]
      exact ih x hx hf

/-- C8 (amended): an edit re-prices the booking exactly when the submitted
check-in or check-out differs from the stored values.  The status, room type
and room count play no role in the trigger: the source compares room type and
room count to themselves (always false), and a status change only produces an
audit entry.  When the dates are unchanged the stored price survives even
though the guest fields, status and assigned unit are overwritten; when a
date differs, the price becomes the freshly computed one. -/
theorem edit_booking_save_reprice_iff (db : DB) (config_id booking_id : Nat)
    (guest_name : String) (guest_email guest_phone : Option String)
    (check_in check_out : Int) (room_unit_id : Nat) (status : String)
    (deposit : ℚ) (notes : String) (booking : Booking)
    (hfind : db.bookings.find? (fun b => decide (b.id = booking_id ∧
        b.site_config_id = config_id)) = some booking) :
    ((booking.check_in = checkInTime check_in ∧
        booking.check_out = checkOutTime check_out) →
      ∃ db2, edit_booking_save db config_id booking_id guest_name guest_email
          guest_phone check_in check_out room_unit_id status deposit notes
          = some db2 ∧
        (db2.bookings.find? (fun b => decide (b.id = booking_id ∧
            b.site_config_id = config_id))).map Booking.total_price
          = some booking.total_price ∧
        (db2.bookings.find? (fun b => decide (b.id = booking_id ∧
            b.site_config_id = config_id))).map Booking.status = some status ∧
        (db2.bookings.find? (fun b => decide (b.id = booking_id ∧
            b.site_config_id = config_id))).map Booking.room_unit_id
          = some (some room_unit_id) ∧
        (db2.bookings.find? (fun b => decide (b.id = booking_id ∧
            b.site_config_id = config_id))).map Booking.guest_name
          = some guest_name) ∧
    (∀ new_total, (booking.check_in ≠ checkInTime check_in ∨
        booking.check_out ≠ checkOutTime check_out) →
      calculate_price db config_id booking.room_type_id (checkInTime check_in)
        (checkOutTime check_out) (booking.rooms_booked : ℚ) = some new_total →
      ∃ db2, edit_booking_save db config_id booking_id guest_name guest_email
          guest_phone check_in check_out room_unit_id status deposit notes
          = some db2 ∧
        (db2.bookings.find? (fun b => decide (b.id = booking_id ∧
            b.site_config_id = config_id))).map Booking.total_price
          = some new_total) := by
  have hp := List.find?_some hfind
  have hpdec : booking.id = booking_id ∧ booking.site_config_id = config_id := by
    simpa using hp
  constructor
  · rintro ⟨hin, hout⟩
    have hrep : repriceNeeded booking (checkInTime check_in) (checkOutTime check_out)
        = false := by
      simp [repriceNeeded, hin, hout]
    have hfp : (fun b => decide (b.id = booking_id ∧ b.site_config_id = config_id))
        (editedBooking booking guest_name guest_email guest_phone
          (checkInTime check_in) (checkOutTime check_out) room_unit_id status
          deposit notes booking.total_price) = true := by
      simp [editedBooking, hpdec.1, hpdec.2]
    have heq : edit_booking_save db config_id booking_id guest_name guest_email
        guest_phone check_in check_out room_unit_id status deposit notes
        = some { db with
            bookings := updateFirst
              (fun b => decide (b.id = booking_id ∧ b.site_config_id = config_id))
              (fun _ => editedBooking booking guest_name guest_email guest_phone
                (checkInTime check_in) (checkOutTime check_out) room_unit_id status
                deposit notes booking.total_price) db.bookings,
            logs := db.logs ++
              (if booking.status ≠ status then
                [({ site_config_id := config_id, user := "Admin",
                    action := "Update Booking",
                    details := "Status: " ++ booking.status ++ "->" ++ status } :
                  AuditEntry)]
              else []) } := by
      unfold edit_booking_save
      rw [hfind]
      dsimp only
      rw [if_neg (by simp [hrep])]
    refine ⟨_, heq, ?_, ?_, ?_, ?_⟩
    all_goals
      dsimp only
      rw [find?_updateFirst _ _ db.bookings booking hfind hfp]
      rfl
  · intro new_total hdates hcalc
    have hrep : repriceNeeded booking (checkInTime check_in) (checkOutTime check_out)
        = true := by
      rcases hdates with h | h <;> simp [repriceNeeded, h]
    have hfp : (fun b => decide (b.id = booking_id ∧ b.site_config_id = config_id))
        (editedBooking booking guest_name guest_email guest_phone
          (checkInTime check_in) (checkOutTime check_out) room_unit_id status
          deposit notes new_total) = true := by
      simp [editedBooking, hpdec.1, hpdec.2]
    have heq : edit_booking_save db config_id booking_id guest_name guest_email
        guest_phone check_in check_out room_unit_id status deposit notes
        = some { db with
            bookings := updateFirst
              (fun b => decide (b.id = booking_id ∧ b.site_config_id = config_id))
              (fun _ => editedBooking booking guest_name guest_email guest_phone
                (checkInTime check_in) (checkOutTime check_out) room_unit_id status
                deposit notes new_total) db.bookings,
            logs := db.logs ++
              (if booking.status ≠ status then
                [({ site_config_id := config_id, user := "Admin",
                    action := "Update Booking",
                    details := "Status: " ++ booking.status ++ "->" ++ status } :
                  AuditEntry)]
              else []) } := by
      unfold edit_booking_save
      rw [hfind]
      dsimp only
      rw [if_pos (by simp [hrep]), hcalc]
    refine ⟨_, heq, ?_⟩
    dsimp only
    rw [find?_updateFirst _ _ db.bookings booking hfind hfp]
    rfl

/-- Witness for C8 (the dates-unchanged branch): editing the stored booking
with the same days 10..12 but a new status and unit leaves the stored price
500 in place while the status, unit and guest name are updated. -/
theorem edit_booking_save_reprice_iff_witness :
    ∃ db2, edit_booking_save editDb 1 1 "X" none none 10 12 1 "confirmed" 0 ""
        = some db2 ∧
      (db2.bookings.find? (fun b => decide (b.id = 1 ∧ b.site_config_id = 1))).map
        Booking.total_price = some storedStay.total_price ∧
      (db2.bookings.find? (fun b => decide (b.id = 1 ∧ b.site_config_id = 1))).map
        Booking.status = some "confirmed" ∧
      (db2.bookings.find? (fun b => decide (b.id = 1 ∧ b.site_config_id = 1))).map
        Booking.room_unit_id = some (some 1) ∧
      (db2.bookings.find? (fun b => decide (b.id = 1 ∧ b.site_config_id = 1))).map
        Booking.guest_name = some "X" :=
  (edit_booking_save_reprice_iff editDb 1 1 "X" none none 10 12 1 "confirmed" 0 ""
    storedStay (by decide)).1 ⟨rfl, rfl⟩

/-- Counterexample to C8 as stated: the submitted status "confirmed" differs
from the stored "pending" while the dates are unchanged, so the claim demands
a re-price (which would store 200 = 2 nights at 100), yet the saved booking
keeps the stale stored price 500. -/
theorem edit_booking_save_status_cex :
    storedStay.status ≠ "confirmed" ∧
    editedPrice = some 500 ∧
    calculate_price editDb 1 1 (checkInTime 10) (checkOutTime 12) 1 = some 200 ∧
    (500 : ℚ) ≠ 200 :=
  ⟨by decide, by decide, by with_unfolding_all decide, by decide⟩

end Hotel
